import Mathlib

/-!
Verification of `bt_speaker.py`, a Bluetooth auto-pairing daemon.

The script is shallowly embedded: every remote bus call is modelled by an
explicit outcome value (`Except String Unit`) supplied by the environment,
and each code path is a pure Lean function from those outcomes to the list
of attempted writes, printed lines and trace events.  Introspecting a
remote object and setting one of its properties form a single remote
property-write operation in this model, matching the spec's interface
abstraction (a "property set" is one request/reply exchange); a failure of
either half is a failure of the write.  The initial bus connection is
assumed to succeed: the process would crash before any behaviour modelled
here otherwise.
-/

namespace BtSpeaker

/-! ## Constants from the top of `bt_speaker.py` -/

def BLUEZ : String := "org.bluez"

def OBJMGR_IFACE : String := "org.freedesktop.DBus.ObjectManager"

def PROPS_IFACE : String := "org.freedesktop.DBus.Properties"

def ADAPTER_IFACE : String := "org.bluez.Adapter1"

def DEVICE_IFACE : String := "org.bluez.Device1"

def AGENT_MGR_IFACE : String := "org.bluez.AgentManager1"

def AGENT_PATH : String := "/bt/agent"

def AGENT_CAP : String := "NoInputNoOutput"

/-! ## D-Bus values

`dbus_next.Variant` carries a type signature and a value; the signature
determines the runtime type of the value, so the embedding fuses the two:
a boolean variant has signature "b", a string variant "s", an unsigned
integer variant "u".  `truthy` is Python truthiness of the payload, used
by the `connected.value` test in `on_props_changed`. -/

inductive Variant where
  | vb (b : Bool)
  | vs (s : String)
  | vu (n : Nat)
deriving DecidableEq, Repr

def Variant.signature : Variant → String
  | .vb _ => "b"
  | .vs _ => "s"
  | .vu _ => "u"

def Variant.truthy : Variant → Bool
  | .vb b => b
  | .vs s => s ≠ ""
  | .vu n => n ≠ 0

/-! ## Messages

A `PropertiesChanged` signal as delivered to the handler: the message
header (type, interface, member, emitting object path) and its body
`(iface, changed, invalidated)`. -/

inductive MessageType where
  | signal
  | methodCall
  | methodReturn
  | errorReturn
deriving DecidableEq, Repr

structure Message where
  messageType : MessageType
  interface : String
  member : String
  path : String
  bodyIface : String
  bodyChanged : List (String × Variant)
  bodyInvalid : List String
deriving DecidableEq, Repr

/-- An attempted property write (`call_set`) against a remote object. -/
structure Write where
  path : String
  iface : String
  prop : String
  value : Variant
deriving DecidableEq, Repr

def trustWrite (devPath : String) : Write :=
  ⟨devPath, DEVICE_IFACE, "Trusted", Variant.vb true⟩

def rearmWrite (adapterPath : String) : Write :=
  ⟨adapterPath, ADAPTER_IFACE, "Discoverable", Variant.vb true⟩

/-- Outcomes of the remote calls one handler invocation can issue:
the trust write against the emitting device (introspection plus
`call_set`, fused) and the discoverable re-arm write against the
adapter whose path the handler's `adapter_props` argument is bound to. -/
structure DeviceEnv where
  adapterPath : String
  trustResult : Except String Unit
  rearmResult : Except String Unit

/-- The `changed.get("Connected")` test of `on_props_changed`:
`isinstance(connected, Variant) and connected.signature == "b" and connected.value`.
Values in the body's changed map are always `Variant`s in `dbus_next`,
so the `isinstance` test only excludes a missing key. -/
def connectedTrue (changed : List (String × Variant)) : Bool :=
  match changed.lookup "Connected" with
  | some v => v.signature == "b" && v.truthy
  | none => false

def trustWarnLine (devPath e : String) : String :=
  s!"[WARN] Failed to trust {devPath}: {e}"

def trustedInfoLine (devPath : String) : String :=
  s!"[INFO] Device connected and trusted: {devPath}"

/-- `on_props_changed`: returns the writes the handler attempts (a write
counts as attempted when its remote call is issued, whether or not it
fails) and the lines it prints, in order.  The re-arm failure branch is
`except: pass` in the source — it prints nothing. -/
def on_props_changed (env : DeviceEnv) (msg : Message) : List Write × List String :=
  if msg.messageType ≠ MessageType.signal then ([], [])
  else if msg.interface ≠ PROPS_IFACE ∨ msg.member ≠ "PropertiesChanged" then ([], [])
  else if msg.bodyIface ≠ DEVICE_IFACE then ([], [])
  else if connectedTrue msg.bodyChanged then
    let trustLines : List String :=
      match env.trustResult with
      | .ok _ => []
      | .error e => [trustWarnLine msg.path e]
    let rearmLines : List String :=
      match env.rearmResult with
      | .ok _ => []
      | .error _ => []
    ([trustWrite msg.path, rearmWrite env.adapterPath],
     trustLines ++ rearmLines ++ [trustedInfoLine msg.path])
  else ([], [])

/-! ## Adapter discovery (`get_adapter_path`)

A poll of the object registry (`get_object_manager` followed by
`call_get_managed_objects`) either raises — modelled as `Except.error` —
or returns the managed objects: a list of (object path, implemented
interfaces).  `polls i` is the result of the `(i+1)`-th poll.  The 0.5 s
sleep between attempts is real time and has no effect on the result; it
is not modelled. -/

/-- The `for path, ifaces in objects.items()` scan: first object
implementing `Adapter1`. -/
def firstAdapter (objects : List (String × List String)) : Option String :=
  (objects.find? (fun e => e.2.contains ADAPTER_IFACE)).map (fun e => e.1)

/-- What one poll attempt contributes: a raised query is swallowed by the
bare `except` and yields no match, exactly like a registry without an
adapter. -/
def pollResult (r : Except String (List (String × List String))) : Option String :=
  match r with
  | .error _ => none
  | .ok objs => firstAdapter objs

/-- `get_adapter_path`, with the poll index made explicit: returns the
adapter path found (or `none`) together with the number of poll attempts
performed. -/
def get_adapter_path (polls : Nat → Except String (List (String × List String))) :
    Nat → Nat → Option String × Nat
  | _, 0 => (none, 0)
  | i, r + 1 =>
    match polls i with
    | .error _ =>
      let rest := get_adapter_path polls (i + 1) r
      (rest.1, rest.2 + 1)
    | .ok objs =>
      match firstAdapter objs with
      | some p => (some p, 1)
      | none =>
        let rest := get_adapter_path polls (i + 1) r
        (rest.1, rest.2 + 1)

/-- Default `retries=10`; the companion default `delay=0.5` seconds is
wall-clock time between attempts and is outside the model. -/
def DEFAULT_RETRIES : Nat := 10

/-- A concrete poll sequence: a raised query, then a registry without an
adapter, then a registry holding one. -/
def locatorTestPolls (i : Nat) : Except String (List (String × List String)) :=
  if i = 0 then Except.error "org.freedesktop.DBus.Error.NoReply"
  else if i = 1 then Except.ok [("/org/bluez", [OBJMGR_IFACE])]
  else Except.ok [("/org/bluez/hci0", ["org.freedesktop.DBus.Introspectable", ADAPTER_IFACE])]

/-- The reactor loop: handler invocations are strictly serialized, one
completed per queued notification before the next is processed. -/
def processEvents : List (DeviceEnv × Message) → List Write × List String
  | [] => ([], [])
  | (env, msg) :: rest =>
    let (w, l) := on_props_changed env msg
    let (w2, l2) := processEvents rest
    (w ++ w2, l ++ l2)

/-! ## Agent registration (`register_agent`) -/

/-- `register_agent` as a function of the outcomes of its two
agent-manager calls.  `call_register_agent` sits inside
`try: ... except Exception: pass`: every failure, whatever its kind, is
swallowed.  `call_request_default_agent` is unprotected, so its outcome
is the function's outcome.  The function prints nothing; the second
component is its (empty) list of printed lines.  The introspection of
`/org/bluez` and the local export of the agent object are modelled as
succeeding — their failure would propagate before either call is
reached. -/
def register_agent (regResult defaultResult : Except String Unit) :
    Except String Unit × List String :=
  let _swallowed : Unit :=
    match regResult with
    | .ok _ => ()
    | .error _ => ()
  match defaultResult with
  | .ok _ => (Except.ok (), [])
  | .error e => (Except.error e, [])

/-! ## The `main` startup sequence as an event trace -/

/-- One observable step of `main`: a bus operation, a printed line, or a
process-ending event (`exitProc` for `sys.exit`, `crash` for an uncaught
exception propagating through `asyncio.run`). -/
inductive Ev where
  | busConnect
  | exportAgent (path : String)
  | callRegisterAgent (path cap : String)
  | callRequestDefault (path : String)
  | pollRegistry (i : Nat)
  | introspectPath (p : String)
  | setProp (path iface prop : String) (v : Variant)
  | subscribe (iface signal ns : String)
  | printLine (toStdout : Bool) (s : String)
  | exitProc (code : Nat)
  | crash (e : String)
deriving DecidableEq, Repr

/-- A value from the provisioning list; the code dispatches on
`isinstance(val, bool)` to pick the variant signature. -/
inductive PyVal where
  | pyBool (b : Bool)
  | pyStr (s : String)
deriving DecidableEq, Repr

def toVariant : PyVal → Variant
  | .pyBool b => Variant.vb b
  | .pyStr s => Variant.vs s

/-- The literal list the provisioning loop of `main` iterates over. -/
def provisionList : List (String × PyVal) :=
  [("Powered", PyVal.pyBool true),
   ("Pairable", PyVal.pyBool true),
   ("Discoverable", PyVal.pyBool true),
   ("Alias", PyVal.pyStr "Pi Speaker")]

def provisionWarnLine (key e : String) : String :=
  s!"[WARN] Failed setting {key}: {e}"

/-- The provisioning loop: each `call_set` is one attempted write; a
failing write prints a warning and the loop continues with the next
property.  `setOutcome key` is the outcome of the write for `key`. -/
def provisionEvents (setOutcome : String → Except String Unit) (adapterPath : String) :
    List Ev :=
  provisionList.flatMap (fun kv =>
    match kv with
    | (key, pv) =>
      Ev.setProp adapterPath ADAPTER_IFACE key (toVariant pv) ::
      (match setOutcome key with
       | .ok _ => []
       | .error e => [Ev.printLine true (provisionWarnLine key e)]))

/-- The property keys of the writes attempted in a trace, in order. -/
def writeKeys (evs : List Ev) : List String :=
  evs.filterMap (fun ev =>
    match ev with
    | Ev.setProp _ _ key _ => some key
    | _ => none)

/-- Environment of one run of `main`: the outcome of each remote call it
can issue. -/
structure MainEnv where
  regResult : Except String Unit
  defaultResult : Except String Unit
  polls : Nat → Except String (List (String × List String))
  adapterIntrospect : Except String Unit
  setAdapterProp : String → Except String Unit
  subscribeResult : Except String Unit

def noAdapterLine : String :=
  "[ERROR] No Bluetooth adapter found. Is bluetooth.service running?"

def readyLine : String :=
  "[INFO] Ready. Pair your phone with \x27Pi Speaker\x27 and select it as audio output."

/-- The subscription as established by `bus.add_signal_receiver`. -/
def subscribeEv : Ev := Ev.subscribe PROPS_IFACE "PropertiesChanged" "/org/bluez"

/-- `main` as the trace of bus operations, printed lines and
process-ending events it performs, in order.  The initial bus connection
and the `/org/bluez` introspection inside `register_agent` are assumed to
succeed (their failure would crash before anything else happens). -/
def mainTrace (env : MainEnv) : List Ev :=
  Ev.busConnect :: Ev.introspectPath "/org/bluez" :: Ev.exportAgent AGENT_PATH ::
  Ev.callRegisterAgent AGENT_PATH AGENT_CAP ::
  Ev.callRequestDefault AGENT_PATH ::
  (match (register_agent env.regResult env.defaultResult).1 with
   | .error e => [Ev.crash e]
   | .ok _ =>
     ((List.range (get_adapter_path env.polls 0 DEFAULT_RETRIES).2).map Ev.pollRegistry) ++
     (match (get_adapter_path env.polls 0 DEFAULT_RETRIES).1 with
      | none => [Ev.printLine false noAdapterLine, Ev.exitProc 1]
      | some p =>
        Ev.introspectPath p ::
        (match env.adapterIntrospect with
         | .error e => [Ev.crash e]
         | .ok _ =>
           provisionEvents env.setAdapterProp p ++
           (match env.subscribeResult with
            | .error e => [Ev.crash e]
            | .ok _ => [subscribeEv, Ev.printLine true readyLine]))))

/-- Registry polls that report one adapter immediately. -/
def adapterOkPolls (_i : Nat) : Except String (List (String × List String)) :=
  Except.ok [("/org/bluez/hci0", [ADAPTER_IFACE])]

/-- A run in which every remote call succeeds. -/
def allOkEnv : MainEnv :=
  ⟨Except.ok (), Except.ok (), adapterOkPolls, Except.ok (),
   fun _ => Except.ok (), Except.ok ()⟩

/-- A run in which only `call_request_default_agent` fails. -/
def defaultFailEnv : MainEnv :=
  ⟨Except.ok (), Except.error "org.freedesktop.DBus.Error.UnknownMethod",
   adapterOkPolls, Except.ok (), fun _ => Except.ok (), Except.ok ()⟩

/-- A run in which the registry never reports an adapter. -/
def noAdapterEnv : MainEnv :=
  ⟨Except.ok (), Except.ok (), fun _ => Except.ok [], Except.ok (),
   fun _ => Except.ok (), Except.ok ()⟩

/-- Is the event a printed line? -/
def isPrint : Ev → Bool
  | Ev.printLine _ _ => true
  | _ => false

/-- The same handler environment with the re-arm write forced to
succeed. -/
def withRearmOk (env : DeviceEnv) : DeviceEnv :=
  ⟨env.adapterPath, env.trustResult, Except.ok ()⟩

/-- A handler environment whose re-arm write fails. -/
def rearmFailEnv : DeviceEnv :=
  ⟨"/org/bluez/hci0", Except.ok (), Except.error "org.bluez.Error.NotReady"⟩

/-- A qualifying connection notification from device `dev_DD`. -/
def connectMsg : Message :=
  ⟨MessageType.signal, PROPS_IFACE, "PropertiesChanged",
   "/org/bluez/hci0/dev_DD", DEVICE_IFACE, [("Connected", Variant.vb true)], []⟩

/-- Provisioning outcomes where only the alias write fails. -/
def aliasFailSet (key : String) : Except String Unit :=
  if key = "Alias" then Except.error "org.bluez.Error.Rejected" else Except.ok ()

/-- A handler environment whose trust write fails. -/
def trustFailEnv : DeviceEnv :=
  ⟨"/org/bluez/hci0", Except.error "org.bluez.Error.AuthenticationFailed", Except.ok ()⟩

end BtSpeaker

namespace BtSpeaker

/-! ## Lemmas -/

theorem connectedTrue_iff (changed : List (String × Variant)) :
    connectedTrue changed = true ↔ changed.lookup "Connected" = some (Variant.vb true) := by
  unfold connectedTrue
  cases h : changed.lookup "Connected" with
  | none => simp
  | some v =>
    cases v with
    | vb b => cases b <;> simp [Variant.signature, Variant.truthy]
    | vs s => simp [Variant.signature, Variant.truthy]
    | vu n => simp [Variant.signature, Variant.truthy]

/-- C1: for every incoming property-change notification (a signal on the
properties interface with member `PropertiesChanged`), the handler issues
exactly the trust write against the emitting device and the discoverable
re-arm write against the adapter if and only if the body's interface is
the device interface and the changed-property map carries a `Connected`
entry whose value is the boolean variant `true`; otherwise it issues no
writes and prints nothing. -/
theorem rising_edge_filter (env : DeviceEnv) (msg : Message)
    (h1 : msg.messageType = MessageType.signal)
    (h2 : msg.interface = PROPS_IFACE)
    (h3 : msg.member = "PropertiesChanged") :
    ((on_props_changed env msg).1 = [trustWrite msg.path, rearmWrite env.adapterPath] ↔
      (msg.bodyIface = DEVICE_IFACE ∧
        msg.bodyChanged.lookup "Connected" = some (Variant.vb true))) ∧
    (¬ (msg.bodyIface = DEVICE_IFACE ∧
        msg.bodyChanged.lookup "Connected" = some (Variant.vb true)) →
      on_props_changed env msg = ([], [])) := by
  unfold on_props_changed
  simp only [h1, h2, h3, ne_eq, not_true_eq_false, if_false, or_self, if_neg, not_false_eq_true]
  by_cases hif : msg.bodyIface = DEVICE_IFACE
  · by_cases hc : connectedTrue msg.bodyChanged = true
    · have hl := (connectedTrue_iff msg.bodyChanged).mp hc
      simp [hif, hc, hl]
    · have hl : ¬ msg.bodyChanged.lookup "Connected" = some (Variant.vb true) := by
        intro h
        exact hc ((connectedTrue_iff msg.bodyChanged).mpr h)
      simp [hif, hc, hl]
  · simp [hif]

/-- C5: for a qualifying connection event whose trust write fails, the
discoverable re-arm write is still attempted, and the reactor processes
every following event: the handler returns normally (it is total on its
failure environment) and the loop's output is the handler's output
followed by the processing of the rest of the queue. -/
theorem best_effort_isolation (env : DeviceEnv) (msg : Message) (e : String)
    (h1 : msg.messageType = MessageType.signal)
    (h2 : msg.interface = PROPS_IFACE)
    (h3 : msg.member = "PropertiesChanged")
    (h4 : msg.bodyIface = DEVICE_IFACE)
    (h5 : msg.bodyChanged.lookup "Connected" = some (Variant.vb true))
    (ht : env.trustResult = Except.error e) :
    rearmWrite env.adapterPath ∈ (on_props_changed env msg).1 ∧
    (on_props_changed env msg).2 =
      [trustWarnLine msg.path e, trustedInfoLine msg.path] ∧
    (∀ rest, processEvents ((env, msg) :: rest) =
      ((on_props_changed env msg).1 ++ (processEvents rest).1,
       (on_props_changed env msg).2 ++ (processEvents rest).2)) := by
  have hc : connectedTrue msg.bodyChanged = true :=
    (connectedTrue_iff msg.bodyChanged).mpr h5
  refine ⟨?_, ?_, ?_⟩
  · unfold on_props_changed
    simp [h1, h2, h3, h4, hc]
  · unfold on_props_changed
    simp [h1, h2, h3, h4, hc, ht]
    cases env.rearmResult <;> simp
  · intro rest
    simp [processEvents]

/-- Witness for C5: a concrete qualifying event whose trust write fails. -/
theorem best_effort_isolation_witness :
    rearmWrite "/org/bluez/hci0" ∈
      (on_props_changed
        ⟨"/org/bluez/hci0", Except.error "org.bluez.Error.Failed", Except.ok ()⟩
        ⟨MessageType.signal, PROPS_IFACE, "PropertiesChanged",
         "/org/bluez/hci0/dev_BB", DEVICE_IFACE,
         [("Connected", Variant.vb true)], []⟩).1 := by
  exact (best_effort_isolation
      ⟨"/org/bluez/hci0", Except.error "org.bluez.Error.Failed", Except.ok ()⟩
      ⟨MessageType.signal, PROPS_IFACE, "PropertiesChanged",
       "/org/bluez/hci0/dev_BB", DEVICE_IFACE,
       [("Connected", Variant.vb true)], []⟩
      "org.bluez.Error.Failed" rfl rfl rfl rfl rfl rfl).1

/-- C10: for every qualifying connection event the handler prints the
informational "Device connected and trusted" line naming the device path,
whatever the outcome of the trust write (and of the re-arm write): the
confirmation line does not imply the trust write succeeded. -/
theorem info_line_unconditional (env : DeviceEnv) (msg : Message)
    (h1 : msg.messageType = MessageType.signal)
    (h2 : msg.interface = PROPS_IFACE)
    (h3 : msg.member = "PropertiesChanged")
    (h4 : msg.bodyIface = DEVICE_IFACE)
    (h5 : msg.bodyChanged.lookup "Connected" = some (Variant.vb true)) :
    trustedInfoLine msg.path ∈ (on_props_changed env msg).2 := by
  have hc : connectedTrue msg.bodyChanged = true :=
    (connectedTrue_iff msg.bodyChanged).mpr h5
  unfold on_props_changed
  simp only [h1, h2, h3, h4, hc]
  cases env.trustResult <;> cases env.rearmResult <;> simp

/-- Witness for C10: the info line is printed at a concrete qualifying
event even though the trust write failed there. -/
theorem info_line_unconditional_witness :
    trustedInfoLine "/org/bluez/hci0/dev_CC" ∈
      (on_props_changed
        ⟨"/org/bluez/hci0", Except.error "org.bluez.Error.DoesNotExist", Except.ok ()⟩
        ⟨MessageType.signal, PROPS_IFACE, "PropertiesChanged",
         "/org/bluez/hci0/dev_CC", DEVICE_IFACE,
         [("Connected", Variant.vb true)], []⟩).2 := by
  exact info_line_unconditional
      ⟨"/org/bluez/hci0", Except.error "org.bluez.Error.DoesNotExist", Except.ok ()⟩
      ⟨MessageType.signal, PROPS_IFACE, "PropertiesChanged",
       "/org/bluez/hci0/dev_CC", DEVICE_IFACE,
       [("Connected", Variant.vb true)], []⟩
      rfl rfl rfl rfl rfl

theorem get_adapter_path_none (polls : Nat → Except String (List (String × List String))) :
    ∀ r i, (∀ j, j < r → pollResult (polls (i + j)) = none) →
      get_adapter_path polls i r = (none, r) := by
  intro r
  induction r with
  | zero => intro i _; rfl
  | succ r ih =>
    intro i h
    have h0 : pollResult (polls i) = none := by
      have := h 0 (Nat.succ_pos r)
      simpa using this
    have hrest : get_adapter_path polls (i + 1) r = (none, r) := by
      apply ih
      intro j hj
      have := h (j + 1) (by omega)
      rwa [show i + (j + 1) = i + 1 + j by omega] at this
    unfold get_adapter_path
    cases hp : polls i with
    | error e => simp [hrest]
    | ok objs =>
      have : firstAdapter objs = none := by
        simpa [pollResult, hp] using h0
      simp [this, hrest]

theorem get_adapter_path_found (polls : Nat → Except String (List (String × List String)))
    (p : String) :
    ∀ k r i, k < r → (∀ j, j < k → pollResult (polls (i + j)) = none) →
      pollResult (polls (i + k)) = some p →
      get_adapter_path polls i r = (some p, k + 1) := by
  intro k
  induction k with
  | zero =>
    intro r i hr _ hmatch
    cases r with
    | zero => omega
    | succ r =>
      have hm : pollResult (polls i) = some p := by simpa using hmatch
      unfold get_adapter_path
      cases hp : polls i with
      | error e => simp [pollResult, hp] at hm
      | ok objs =>
        have : firstAdapter objs = some p := by simpa [pollResult, hp] using hm
        simp [this]
  | succ k ih =>
    intro r i hr hpre hmatch
    cases r with
    | zero => omega
    | succ r =>
      have h0 : pollResult (polls i) = none := by
        have := hpre 0 (Nat.succ_pos k)
        simpa using this
      have hrest : get_adapter_path polls (i + 1) r = (some p, k + 1) := by
        apply ih r (i + 1) (by omega)
        · intro j hj
          have := hpre (j + 1) (by omega)
          rwa [show i + (j + 1) = i + 1 + j by omega] at this
        · rwa [show i + (k + 1) = i + 1 + k by omega] at hmatch
      unfold get_adapter_path
      cases hp : polls i with
      | error e => simp [hrest]
      | ok objs =>
        have : firstAdapter objs = none := by
          simpa [pollResult, hp] using h0
        simp [this, hrest]

/-- C2: over any sequence of registry poll results, if none of the first
`k < 10` polls yields an adapter (a raised registry query yields no
adapter, see the last conjunct) and the `(k+1)`-th poll yields adapter
path `p`, then `get_adapter_path` returns `p` after exactly `k + 1` poll
attempts, short-circuiting the rest; if no poll among the ten yields an
adapter, it returns `none` after exactly ten attempts; and a poll whose
query raises contributes exactly a non-matching attempt. -/
theorem adapter_locator_bound (polls : Nat → Except String (List (String × List String))) :
    (∀ k p, k < DEFAULT_RETRIES →
      (∀ j, j < k → pollResult (polls j) = none) →
      pollResult (polls k) = some p →
      get_adapter_path polls 0 DEFAULT_RETRIES = (some p, k + 1)) ∧
    ((∀ j, j < DEFAULT_RETRIES → pollResult (polls j) = none) →
      get_adapter_path polls 0 DEFAULT_RETRIES = (none, DEFAULT_RETRIES)) ∧
    (∀ e, pollResult (Except.error e) = none) := by
  refine ⟨?_, ?_, ?_⟩
  · intro k p hk hpre hmatch
    apply get_adapter_path_found polls p k DEFAULT_RETRIES 0 hk
    · intro j hj
      simpa using hpre j hj
    · simpa using hmatch
  · intro h
    apply get_adapter_path_none
    intro j hj
    simpa using h j hj
  · intro e
    rfl

/-- Witness for C2: with a raised first poll, an adapter-free second poll
and a matching third poll, the locator returns the adapter on poll 3. -/
theorem adapter_locator_bound_witness :
    get_adapter_path locatorTestPolls 0 DEFAULT_RETRIES = (some "/org/bluez/hci0", 3) := by
  exact (adapter_locator_bound locatorTestPolls).1 2 "/org/bluez/hci0"
    (by decide) (by decide) (by decide)

/-- Witness for C1 at a concrete qualifying notification. -/
theorem rising_edge_filter_witness :
    (on_props_changed
        ⟨"/org/bluez/hci0", Except.ok (), Except.ok ()⟩
        ⟨MessageType.signal, PROPS_IFACE, "PropertiesChanged",
         "/org/bluez/hci0/dev_AA", DEVICE_IFACE,
         [("Connected", Variant.vb true)], []⟩).1 =
      [trustWrite "/org/bluez/hci0/dev_AA", rearmWrite "/org/bluez/hci0"] := by
  exact (rising_edge_filter
      ⟨"/org/bluez/hci0", Except.ok (), Except.ok ()⟩
      ⟨MessageType.signal, PROPS_IFACE, "PropertiesChanged",
       "/org/bluez/hci0/dev_AA", DEVICE_IFACE,
       [("Connected", Variant.vb true)], []⟩
      rfl rfl rfl).1.mpr ⟨rfl, by decide⟩

/-- Counterexample to C3: a failure of `call_register_agent` that is not
an already-registered condition (here a NoReply timeout) is silently
treated as success — nothing is propagated or reported. -/
theorem registration_swallow_counterexample :
    register_agent (Except.error "org.freedesktop.DBus.Error.NoReply") (Except.ok ()) =
      (Except.ok (), []) := rfl

/-- C3 (amended): `register_agent` succeeds whether `call_register_agent`
succeeds or fails — with an already-registered condition or with any
other failure kind alike, the bare `except` swallows it without retrying
and without reporting; the overall outcome is exactly the outcome of the
`call_request_default_agent` call. -/
theorem registration_always_swallows (regR defR : Except String Unit) :
    register_agent regR defR = (defR, []) := by
  cases defR with
  | ok u => cases u; rfl
  | error e => rfl

theorem writeKeys_provisionEvents (f : String → Except String Unit) (p : String) :
    writeKeys (provisionEvents f p) = ["Powered", "Pairable", "Discoverable", "Alias"] := by
  unfold provisionEvents provisionList writeKeys
  cases h1 : f "Powered" <;> cases h2 : f "Pairable" <;> cases h3 : f "Discoverable" <;>
    cases h4 : f "Alias" <;> simp [h1, h2, h3, h4]

/-- C6: whatever subset of the four adapter property writes fails, each
of the four writes — Powered, Pairable, Discoverable, Alias — is
attempted exactly once during provisioning. -/
theorem provisioning_independence (f : String → Except String Unit) (p : String) :
    (writeKeys (provisionEvents f p)).count "Powered" = 1 ∧
    (writeKeys (provisionEvents f p)).count "Pairable" = 1 ∧
    (writeKeys (provisionEvents f p)).count "Discoverable" = 1 ∧
    (writeKeys (provisionEvents f p)).count "Alias" = 1 := by
  rw [writeKeys_provisionEvents]
  refine ⟨?_, ?_, ?_, ?_⟩ <;> decide

/-- Counterexample to C7: the provisioning writes are issued in the
order Powered, Pairable, Discoverable, Alias — not the claimed order
Powered, Discoverable, Pairable, Alias. -/
theorem provisioning_order_counterexample :
    writeKeys (provisionEvents (fun _ => Except.ok ()) "/org/bluez/hci0") =
      ["Powered", "Pairable", "Discoverable", "Alias"] ∧
    writeKeys (provisionEvents (fun _ => Except.ok ()) "/org/bluez/hci0") ≠
      ["Powered", "Discoverable", "Pairable", "Alias"] := by
  refine ⟨?_, ?_⟩ <;> decide

/-- C7 (amended): the provisioner applies its property writes in the
fixed order: power on first, then pairable on, then discoverable on,
then the display alias. -/
theorem provisioning_order (f : String → Except String Unit) (p : String) :
    writeKeys (provisionEvents f p) = ["Powered", "Pairable", "Discoverable", "Alias"] :=
  writeKeys_provisionEvents f p

/-- Counterexample to C4: in a run where only `call_request_default_agent`
fails, the process crashes with that error — no adapter provisioning, no
subscription, and nothing printed, refuting both continuation and
reporting. -/
theorem default_agent_failure_counterexample :
    defaultFailEnv.defaultResult = Except.error "org.freedesktop.DBus.Error.UnknownMethod" ∧
    Ev.crash "org.freedesktop.DBus.Error.UnknownMethod" ∈ mainTrace defaultFailEnv ∧
    subscribeEv ∉ mainTrace defaultFailEnv ∧
    writeKeys (mainTrace defaultFailEnv) = [] ∧
    (mainTrace defaultFailEnv).filter isPrint = [] := by
  refine ⟨rfl, ?_, ?_, ?_, ?_⟩ <;> decide

/-- C4 (amended): a failure of the `call_request_default_agent` call is
fatal: it propagates uncaught out of `register_agent` and `main`, ending
the process before adapter discovery, provisioning or the notification
subscription, and without any reporting by the script itself. -/
theorem default_agent_failure_fatal (env : MainEnv) (e : String)
    (h : env.defaultResult = Except.error e) :
    mainTrace env =
      [Ev.busConnect, Ev.introspectPath "/org/bluez", Ev.exportAgent AGENT_PATH,
       Ev.callRegisterAgent AGENT_PATH AGENT_CAP, Ev.callRequestDefault AGENT_PATH,
       Ev.crash e] ∧
    subscribeEv ∉ mainTrace env ∧
    writeKeys (mainTrace env) = [] := by
  have hreg : (register_agent env.regResult env.defaultResult).1 = Except.error e := by
    rw [h]; rfl
  have htrace : mainTrace env =
      [Ev.busConnect, Ev.introspectPath "/org/bluez", Ev.exportAgent AGENT_PATH,
       Ev.callRegisterAgent AGENT_PATH AGENT_CAP, Ev.callRequestDefault AGENT_PATH,
       Ev.crash e] := by
    unfold mainTrace
    rw [hreg]
  refine ⟨htrace, ?_, ?_⟩
  · rw [htrace]
    simp [subscribeEv]
  · rw [htrace]
    rfl

/-- Witness for C4 (amended) at the concrete failing-promotion run. -/
theorem default_agent_failure_fatal_witness :
    defaultFailEnv.defaultResult = Except.error "org.freedesktop.DBus.Error.UnknownMethod" ∧
    mainTrace defaultFailEnv =
      [Ev.busConnect, Ev.introspectPath "/org/bluez", Ev.exportAgent AGENT_PATH,
       Ev.callRegisterAgent AGENT_PATH AGENT_CAP, Ev.callRequestDefault AGENT_PATH,
       Ev.crash "org.freedesktop.DBus.Error.UnknownMethod"] :=
  ⟨rfl, (default_agent_failure_fatal defaultFailEnv
      "org.freedesktop.DBus.Error.UnknownMethod" rfl).1⟩

theorem subscribeEv_not_mem_provisionEvents (f : String → Except String Unit) (p : String) :
    subscribeEv ∉ provisionEvents f p := by
  intro hmem
  unfold provisionEvents at hmem
  rcases List.mem_flatMap.mp hmem with ⟨kv, _, hev⟩
  obtain ⟨key, pv⟩ := kv
  cases hout : f key <;> simp [hout, subscribeEv] at hev

theorem setProp_mem_provisionEvents (f : String → Except String Unit) (p : String) :
    ∀ kv ∈ provisionList, Ev.setProp p ADAPTER_IFACE kv.1 (toVariant kv.2) ∈ provisionEvents f p := by
  intro kv hkv
  unfold provisionEvents
  apply List.mem_flatMap.mpr
  refine ⟨kv, hkv, ?_⟩
  obtain ⟨key, pv⟩ := kv
  cases hout : f key <;> simp [hout]

/-- C8: in every execution in which the notification subscription is
established, the agent registration call, the default-agent promotion
call, the adapter introspection and all four provisioning writes occur
strictly before it in the trace. -/
theorem startup_ordering (env : MainEnv) (h : subscribeEv ∈ mainTrace env) :
    ∃ l1 l2, mainTrace env = l1 ++ subscribeEv :: l2 ∧
      Ev.callRegisterAgent AGENT_PATH AGENT_CAP ∈ l1 ∧
      Ev.callRequestDefault AGENT_PATH ∈ l1 ∧
      ∃ p, Ev.introspectPath p ∈ l1 ∧
        ∀ kv ∈ provisionList, Ev.setProp p ADAPTER_IFACE kv.1 (toVariant kv.2) ∈ l1 := by
  unfold mainTrace at h ⊢
  cases hreg : (register_agent env.regResult env.defaultResult).1 with
  | error e =>
    rw [hreg] at h
    simp [subscribeEv] at h
  | ok u =>
    rw [hreg] at h
    cases hfound : (get_adapter_path env.polls 0 DEFAULT_RETRIES).1 with
    | none =>
      rw [hfound] at h
      simp [subscribeEv] at h
    | some p =>
      rw [hfound] at h
      cases hin : env.adapterIntrospect with
      | error e =>
        rw [hin] at h
        simp [subscribeEv] at h
      | ok u2 =>
        rw [hin] at h
        cases hsub : env.subscribeResult with
        | error e =>
          rw [hsub] at h
          exfalso
          simp [subscribeEv] at h
          exact subscribeEv_not_mem_provisionEvents env.setAdapterProp p
            (by simpa [subscribeEv] using h)
        | ok u3 =>
          refine ⟨Ev.busConnect :: Ev.introspectPath "/org/bluez" :: Ev.exportAgent AGENT_PATH ::
              Ev.callRegisterAgent AGENT_PATH AGENT_CAP :: Ev.callRequestDefault AGENT_PATH ::
              (((List.range (get_adapter_path env.polls 0 DEFAULT_RETRIES).2).map Ev.pollRegistry) ++
                (Ev.introspectPath p :: provisionEvents env.setAdapterProp p)),
            [Ev.printLine true readyLine], ?_, ?_, ?_, p, ?_, ?_⟩
          · simp
          · simp
          · simp
          · simp
          · intro kv hkv
            have hp := setProp_mem_provisionEvents env.setAdapterProp p kv hkv
            simp [List.mem_append, hp]

/-- Witness for C8 at the all-successful run. -/
theorem startup_ordering_witness :
    subscribeEv ∈ mainTrace allOkEnv ∧
    (∃ l1 l2, mainTrace allOkEnv = l1 ++ subscribeEv :: l2 ∧
      Ev.callRegisterAgent AGENT_PATH AGENT_CAP ∈ l1 ∧
      Ev.callRequestDefault AGENT_PATH ∈ l1 ∧
      ∃ p, Ev.introspectPath p ∈ l1 ∧
        ∀ kv ∈ provisionList, Ev.setProp p ADAPTER_IFACE kv.1 (toVariant kv.2) ∈ l1) :=
  ⟨by decide, startup_ordering allOkEnv (by decide)⟩

/-- Counterexample to C9: a failed discoverable re-arm write is not
converted to a warning line — for a qualifying event whose re-arm write
fails, the handler prints exactly the informational line and no warning
at all. -/
theorem warn_policy_counterexample :
    rearmFailEnv.rearmResult = Except.error "org.bluez.Error.NotReady" ∧
    (on_props_changed rearmFailEnv connectMsg).2 =
      [trustedInfoLine "/org/bluez/hci0/dev_DD"] := by
  refine ⟨rfl, ?_⟩
  decide

/-- C9 (amended): each failed provisioning write and a failed
post-connect trust write are caught at the call site and converted to a
warning line on standard output; a failed discoverable re-arm write is
caught but silently swallowed — the handler's output is identical to
that of a run whose re-arm write succeeds; and the no-adapter-found
class prints its fatal message and terminates the process with exit
code 1 (besides it, an unhandled default-agent-promotion, adapter
introspection or subscription failure also ends the process, see the
C4 theorems). -/
theorem warn_policy :
    (∀ f p key pv e, (key, pv) ∈ provisionList → f key = Except.error e →
      Ev.printLine true (provisionWarnLine key e) ∈ provisionEvents f p) ∧
    (∀ env msg e, msg.messageType = MessageType.signal → msg.interface = PROPS_IFACE →
      msg.member = "PropertiesChanged" → msg.bodyIface = DEVICE_IFACE →
      msg.bodyChanged.lookup "Connected" = some (Variant.vb true) →
      env.trustResult = Except.error e →
      trustWarnLine msg.path e ∈ (on_props_changed env msg).2) ∧
    (∀ env msg e, env.rearmResult = Except.error e →
      (on_props_changed env msg).2 = (on_props_changed (withRearmOk env) msg).2) ∧
    (∀ env, env.defaultResult = Except.ok () →
      (get_adapter_path env.polls 0 DEFAULT_RETRIES).1 = none →
      Ev.printLine false noAdapterLine ∈ mainTrace env ∧
      Ev.exitProc 1 ∈ mainTrace env) := by
  refine ⟨?_, ?_, ?_, ?_⟩
  · intro f p key pv e hmem hf
    unfold provisionEvents
    apply List.mem_flatMap.mpr
    refine ⟨(key, pv), hmem, ?_⟩
    simp [hf]
  · intro env msg e h1 h2 h3 h4 h5 ht
    have hc : connectedTrue msg.bodyChanged = true :=
      (connectedTrue_iff msg.bodyChanged).mpr h5
    unfold on_props_changed
    simp only [h1, h2, h3, h4, hc]
    simp [ht]
  · intro env msg e hr
    unfold on_props_changed withRearmOk
    by_cases h1 : msg.messageType = MessageType.signal
    · by_cases h2 : msg.interface = PROPS_IFACE ∧ msg.member = "PropertiesChanged"
      · by_cases h3 : msg.bodyIface = DEVICE_IFACE
        · by_cases h4 : connectedTrue msg.bodyChanged = true
          · simp only [h1, h2.1, h2.2, h3, h4]
            cases env.trustResult <;> simp [hr]
          · simp [h1, h2.1, h2.2, h3, h4]
        · simp [h1, h2.1, h2.2, h3]
      · rcases not_and_or.mp h2 with h | h <;> simp [h1, h]
    · simp [h1]
  · intro env hdef hfound
    have hreg : (register_agent env.regResult env.defaultResult).1 = Except.ok () := by
      rw [hdef]; rfl
    unfold mainTrace
    rw [hreg, hfound]
    constructor <;> simp

/-- Witness for C9 (amended), applying each conjunct at a concrete
input: an alias write rejection is warned about, a trust failure is
warned about, a re-arm failure changes nothing in the output, and a
registry that never reports an adapter leads to the fatal message and
exit code 1. -/
theorem warn_policy_witness :
    Ev.printLine true (provisionWarnLine "Alias" "org.bluez.Error.Rejected") ∈
      provisionEvents aliasFailSet "/org/bluez/hci0" ∧
    trustWarnLine "/org/bluez/hci0/dev_DD" "org.bluez.Error.AuthenticationFailed" ∈
      (on_props_changed trustFailEnv connectMsg).2 ∧
    (on_props_changed rearmFailEnv connectMsg).2 =
      (on_props_changed (withRearmOk rearmFailEnv) connectMsg).2 ∧
    Ev.exitProc 1 ∈ mainTrace noAdapterEnv :=
  ⟨warn_policy.1 aliasFailSet "/org/bluez/hci0" "Alias" (PyVal.pyStr "Pi Speaker")
      "org.bluez.Error.Rejected" (by decide) rfl,
   warn_policy.2.1 trustFailEnv connectMsg "org.bluez.Error.AuthenticationFailed"
      rfl rfl rfl rfl (by decide) rfl,
   warn_policy.2.2.1 rearmFailEnv connectMsg "org.bluez.Error.NotReady" rfl,
   (warn_policy.2.2.2 noAdapterEnv rfl (by decide)).2⟩

end BtSpeaker
